import Mathlib

/-!
Verification development for the propnet property-derivation engine.

The core modules (`propnet.core.registry`, `propnet.core.symbols`,
`propnet.core.quantity`, `propnet.core.models`, `propnet.core.graph`) are not
among the reviewed excerpts; only their tests and downstream callers are.
The definitions below are therefore modelled from the specification's
descriptions of those modules (data model §3, component design §4), with the
regression tests in `propnet/core/tests` pinning the concrete behaviours.
-/

namespace Propnet

/-- Modelled from the spec: a scalar numeric magnitude as handled by the
evaluation layer (missing module `propnet.core.quantity`).  A magnitude is
either the invalid-value marker NaN or a complex number; real values are
complex numbers with zero imaginary part.  Components are rationals, standing
in for the floating-point values of the source. -/
inductive Magnitude where
  | nan : Magnitude
  | num (re im : ℚ) : Magnitude
deriving DecidableEq

/-- Addition of magnitudes; NaN propagates. -/
def Magnitude.add : Magnitude → Magnitude → Magnitude
  | .nan, _ => .nan
  | _, .nan => .nan
  | .num a b, .num c d => .num (a + c) (b + d)

/-- Multiplication of magnitudes; NaN propagates. -/
def Magnitude.mul : Magnitude → Magnitude → Magnitude
  | .nan, _ => .nan
  | _, .nan => .nan
  | .num a b, .num c d => .num (a * c - b * d) (a * d + b * c)

/-- Rescaling of a magnitude by a rational factor (unit conversion). -/
def Magnitude.scale (k : ℚ) : Magnitude → Magnitude
  | .nan => .nan
  | .num a b => .num (k * a) (k * b)

/-- Tests whether a magnitude is the NaN marker. -/
def Magnitude.isNaN : Magnitude → Bool
  | .nan => true
  | .num _ _ => false

/-- Tests whether a magnitude has a non-zero imaginary component. -/
def Magnitude.hasImag : Magnitude → Bool
  | .nan => false
  | .num _ im => decide (im ≠ 0)

/-- Rational power with a natural exponent (explicit recursion so that
concrete evaluation reduces in the kernel). -/
def qpow (q : ℚ) : ℕ → ℚ
  | 0 => 1
  | n + 1 => q * qpow q n

/-- Rational power with an integer exponent. -/
def qzpow (q : ℚ) : ℤ → ℚ
  | .ofNat n => qpow q n
  | .negSucc n => (qpow q (n + 1))⁻¹

/-- Modelled from the spec: a unit expression is "a scale factor plus a list
of `(unit_name, exponent)` pairs forming a dimensional signature" (§3,
Symbol).  This stands in for the pint unit objects used by the missing
`propnet.core` modules. -/
structure UnitsExpr where
  scale : ℚ
  terms : List (String × ℤ)
deriving DecidableEq

/-- Modelled from the spec: the unit table resolving each unit name to its
scale relative to the SI base unit and its dimension vector over the base
dimensions (length, mass, time).  Stands in for the pint unit registry used
by the missing core modules; it covers the units the reviewed tests use. -/
def baseUnitInfo : String → Option (ℚ × List ℤ)
  | "meter" => some (1, [1, 0, 0])
  | "centimeter" => some (1 / 100, [1, 0, 0])
  | "gigapascal" => some (1000000000, [-1, 1, -2])
  | _ => none

/-- Componentwise sum of two dimension vectors. -/
def dimAdd (a b : List ℤ) : List ℤ := List.zipWith (· + ·) a b

/-- Scalar multiple of a dimension vector. -/
def dimSmul (k : ℤ) (a : List ℤ) : List ℤ := a.map (k * ·)

/-- Reduces a unit expression to its total scale factor and dimension vector,
failing on unknown unit names. -/
def UnitsExpr.reduce (u : UnitsExpr) : Option (ℚ × List ℤ) :=
  u.terms.foldl
    (fun acc t =>
      match acc, baseUnitInfo t.1 with
      | some (s, d), some (s0, d0) => some (s * qzpow s0 t.2, dimAdd d (dimSmul t.2 d0))
      | _, _ => none)
    (some (u.scale, [0, 0, 0]))

/-- Modelled from the spec: a Symbol "describes one physical property type —
canonical unit, dimensional shape, display metadata, category" with equality
by structural content (§2, §3); module `propnet.core.symbols` is missing from
the excerpts. -/
structure Symbol where
  name : String
  display_names : List String
  display_symbols : List String
  units : UnitsExpr
  shape : List ℕ
  comment : String
  category : String
deriving DecidableEq

/-- Modelled from the spec: the JSON-like values appearing in the dict form
of a Symbol used by `to_dict`/`from_dict` (§4.2, §6 Serialization). -/
inductive DictVal where
  | str (s : String)
  | rat (q : ℚ)
  | list (l : List DictVal)

/-- Extracts an integer from a rational dict value when it is integral. -/
def ratToInt? (q : ℚ) : Option ℤ :=
  if q.den = 1 then some q.num else none

/-- Extracts a natural number from a rational dict value when it is a
non-negative integer. -/
def ratToNat? (q : ℚ) : Option ℕ :=
  if q.den = 1 ∧ 0 ≤ q.num then some q.num.toNat else none

/-- Parses one `(unit_name, exponent)` pair of a units dict value. -/
def parseTerm : DictVal → Option (String × ℤ)
  | .list [.str n, .rat q] => (ratToInt? q).map (fun z => (n, z))
  | _ => none

/-- Parses the term list of a units dict value. -/
def parseTerms : List DictVal → Option (List (String × ℤ))
  | [] => some []
  | v :: rest =>
    match parseTerm v, parseTerms rest with
    | some t, some ts => some (t :: ts)
    | _, _ => none

/-- Modelled from the spec: the Symbol constructor "validates that `units`
parses into a scale-factor + dimension-exponent list (or the literal
"dimensionless" marker)" (§4.2). -/
def parseUnits : DictVal → Option UnitsExpr
  | .str "dimensionless" => some ⟨1, []⟩
  | .list [.rat sc, .list ts] => (parseTerms ts).map (fun l => ⟨sc, l⟩)
  | _ => none

/-- Renders a unit expression back into its dict form. -/
def renderUnits (u : UnitsExpr) : DictVal :=
  .list [.rat u.scale, .list (u.terms.map (fun t => .list [.str t.1, .rat (t.2 : ℚ)]))]

/-- Parses a shape dict value: a single positive integer or a list of them
(§4.2: "`shape` is a positive integer or tuple of them"). -/
def parseShapeList : List DictVal → Option (List ℕ)
  | [] => some []
  | .rat q :: rest =>
    match ratToNat? q, parseShapeList rest with
    | some n, some ns => some (n :: ns)
    | _, _ => none
  | _ => none

/-- Parses the shape field of a Symbol dict. -/
def parseShape : DictVal → Option (List ℕ)
  | .rat q => (ratToNat? q).map (fun n => [n])
  | .list l => parseShapeList l
  | _ => none

/-- Parses a string dict value. -/
def parseStr : DictVal → Option String
  | .str s => some s
  | _ => none

/-- Parses a list of string dict values. -/
def parseStrs : List DictVal → Option (List String)
  | [] => some []
  | v :: rest =>
    match parseStr v, parseStrs rest with
    | some s, some ss => some (s :: ss)
    | _, _ => none

/-- Modelled from the spec: the validating Symbol constructor — units must
parse and resolve, shape entries must be positive (§4.2). -/
def Symbol.make (name : String) (display_names display_symbols : List String)
    (unitsIn shapeIn : DictVal) (comment category : String) : Option Symbol :=
  match parseUnits unitsIn, parseShape shapeIn with
  | some u, some sh =>
    if u.reduce.isSome ∧ sh ≠ [] ∧ sh.all (fun n => 0 < n) then
      some ⟨name, display_names, display_symbols, u, sh, comment, category⟩
    else none
  | _, _ => none

/-- Looks a key up in a string-keyed dict. -/
def dictGet (d : List (String × DictVal)) (k : String) : Option DictVal :=
  match d with
  | [] => none
  | (k', v) :: rest => if k' = k then some v else dictGet rest k

/-- Modelled from the spec: Symbol serialization to its dict form (§4.2,
§6 Serialization: the round-trip "preserves all invariant-bearing fields
exactly"). -/
def Symbol.to_dict (s : Symbol) : List (String × DictVal) :=
  [("name", .str s.name),
   ("units", renderUnits s.units),
   ("display_names", .list (s.display_names.map .str)),
   ("display_symbols", .list (s.display_symbols.map .str)),
   ("shape", .list (s.shape.map (fun (n : ℕ) => DictVal.rat (n : ℚ)))),
   ("comment", .str s.comment),
   ("category", .str s.category)]

/-- Modelled from the spec: Symbol deserialization from its dict form,
re-running constructor validation; the category field is optional and
defaults to the property category. -/
def Symbol.from_dict (d : List (String × DictVal)) : Option Symbol :=
  match dictGet d "name", dictGet d "units", dictGet d "display_names",
        dictGet d "display_symbols", dictGet d "shape", dictGet d "comment" with
  | some nameV, some unitsV, some dnsV, some dssV, some shapeV, some commentV =>
    match parseStr nameV, parseStrs (match dnsV with | .list l => l | _ => []),
          parseStrs (match dssV with | .list l => l | _ => []),
          parseStr commentV with
    | some name, some dns, some dss, some comment =>
      let category := ((dictGet d "category").bind parseStr).getD "property"
      Symbol.make name dns dss unitsV shapeV comment category
    | _, _, _, _ => none
  | _, _, _, _, _, _ => none

/-- Modelled from the spec: a Quantity carries a reference to its Symbol, a
numeric magnitude and a unit "possibly non-canonical" but dimensionally
compatible with the Symbol's canonical unit (§3); module
`propnet.core.quantity` is missing from the excerpts. -/
structure Quantity where
  symbol : Symbol
  magnitude : Magnitude
  units : UnitsExpr
deriving DecidableEq

/-- Dimensional compatibility of an optional supplied unit with a Symbol's
canonical unit; an omitted unit means the canonical unit is assumed (§4.3). -/
def unitsCompatible (s : Symbol) (u : Option UnitsExpr) : Bool :=
  match (u.getD s.units).reduce, s.units.reduce with
  | some (_, d1), some (_, d2) => decide (d1 = d2)
  | _, _ => false

/-- Unit-mismatch failure of the quantity factory. -/
inductive QFError where
  | unitMismatch : QFError
deriving DecidableEq

/-- Modelled from the spec: `create_quantity(symbol, magnitude, unit=None)`
assumes the canonical unit when `unit` is omitted, fails on dimensionally
incompatible units, and performs no numeric-validity check (§4.3). -/
def QuantityFactory.create_quantity (symbol : Symbol) (magnitude : Magnitude)
    (unit : Option UnitsExpr) : Except QFError Quantity :=
  if unitsCompatible symbol unit then
    .ok ⟨symbol, magnitude, unit.getD symbol.units⟩
  else
    .error .unitMismatch

/-- Modelled from the spec: an equation's right-hand side as a structured
expression tree over named variables (§9: "represent each equation as a
structured expression tree ... built once at Model-construction time"); the
equation strings of the source are embedded here in parsed form. -/
inductive Expr where
  | var (v : String)
  | const (c : Magnitude)
  | add (a b : Expr)
  | mul (a b : Expr)
deriving DecidableEq

/-- An equation `lhs = rhs` of a model, in parsed form. -/
structure Equation where
  lhs : String
  rhs : Expr
deriving DecidableEq

/-- An environment binding variable names to magnitudes. -/
abbrev Env := List (String × Magnitude)

/-- Evaluates an expression under an environment; fails when a variable is
unbound. -/
def Expr.evalIn (env : Env) : Expr → Option Magnitude
  | .var v => env.lookup v
  | .const c => some c
  | .add a b =>
    match a.evalIn env, b.evalIn env with
    | some x, some y => some (x.add y)
    | _, _ => none
  | .mul a b =>
    match a.evalIn env, b.evalIn env with
    | some x, some y => some (x.mul y)
    | _, _ => none

/-- One pass over the equation list: every equation whose right-hand side is
fully known and whose left-hand side is still unknown binds its left-hand
side (§4.4 step 2: "a variable is solvable once every other variable in its
equation is known"). -/
def solvePass (eqs : List Equation) (env : Env) : Env :=
  eqs.foldl
    (fun env e =>
      if (env.lookup e.lhs).isSome then env
      else
        match e.rhs.evalIn env with
        | some m => (e.lhs, m) :: env
        | none => env)
    env

/-- Fixed-point resolution across the equation set (§4.4 step 3: "iterating
over the equation list more than once if solving one equation unlocks inputs
for another"); the fuel is the number of equations, each productive pass
binding at least one new variable. -/
def solveFix : ℕ → List Equation → Env → Env
  | 0, _, env => env
  | n + 1, eqs, env =>
    let env' := solvePass eqs env
    if env'.length = env.length then env else solveFix n eqs env'

/-- Modelled from the spec: an EquationModel is "a named, registrable unit
that owns one or more algebraic equations over named variables, plus a
mapping from variable names to Symbols" (§2); module `propnet.core.models`
is missing from the excerpts.  The `uid` field models Python object identity
(the `is` comparisons of the regression tests). -/
structure EquationModel where
  name : String
  equations : List Equation
  symbol_property_map : List (String × Symbol)
  uid : ℕ
deriving DecidableEq

/-- Step 1 of evaluation (§4.4): convert each input Quantity to the canonical
unit of its mapped Symbol, recording magnitudes in canonical scale; fails on
an unmapped variable, an unresolvable unit or a dimension mismatch. -/
def convertInputs (spm : List (String × Symbol)) : List (String × Quantity) → Option Env
  | [] => some []
  | (v, q) :: rest =>
    match spm.lookup v, convertInputs spm rest with
    | some s, some env =>
      match q.units.reduce, s.units.reduce with
      | some (s1, d1), some (s2, d2) =>
        if d1 = d2 ∧ s2 ≠ 0 then some ((v, q.magnitude.scale (s1 / s2)) :: env) else none
      | _, _ => none
    | _, _ => none

/-- Steps 1–3 of evaluation (§4.4): unit coercion then fixed-point solving;
returns the newly determined (non-input) variables with their magnitudes in
canonical scale. -/
def EquationModel.solvedOutputs (m : EquationModel) (inputs : List (String × Quantity)) :
    Option Env :=
  (convertInputs m.symbol_property_map inputs).map
    (fun env =>
      (solveFix m.equations.length m.equations env).filter
        (fun p => !(inputs.any (fun q => q.1 == p.1))))

/-- Step 4 of evaluation (§4.4): package each solved output magnitude as a
Quantity expressed in the canonical unit of its mapped output Symbol. -/
def packageOutputs (spm : List (String × Symbol)) : Env → Option (List (String × Quantity))
  | [] => some []
  | (v, mag) :: rest =>
    match spm.lookup v, packageOutputs spm rest with
    | some s, some qs => some ((v, ⟨s, mag, s.units⟩) :: qs)
    | _, _ => none

/-- Outcome of a model evaluation: a success dict mapping output variable
names to Quantities, a structured failure dict (`successful=False` plus a
message, when `allow_failure` is true), or a raised error carrying the same
message (when `allow_failure` is false) — §4.4 step 6. -/
inductive EvalOutcome where
  | success (outputs : List (String × Quantity))
  | failure (message : String)
  | raised (message : String)
deriving DecidableEq

/-- Routes a failure message according to the `allow_failure` flag. -/
def mkFail (allow_failure : Bool) (message : String) : EvalOutcome :=
  if allow_failure then .failure message else .raised message

/-- Modelled from the spec: `EquationModel.evaluate` (§4.4) — unit coercion,
fixed-point solving, validation of outputs (NaN rejected with message
"Evaluation returned invalid values (NaN)"; a spurious non-zero imaginary
part rejected with message "Evaluation returned invalid values (complex)",
where a complex result is spurious unless the computation legitimately
involves complex inputs, as pinned by the regression scenarios), and
packaging of outputs in canonical units. -/
def EquationModel.evaluate (m : EquationModel) (inputs : List (String × Quantity))
    (allow_failure : Bool) : EvalOutcome :=
  (m.solvedOutputs inputs).elim (mkFail allow_failure "Symbol mapping or unit conversion failed")
    (fun outs =>
      if outs.any (fun p => p.2.isNaN) then
        mkFail allow_failure "Evaluation returned invalid values (NaN)"
      else if !(inputs.any (fun p => p.2.magnitude.hasImag)) &&
              outs.any (fun p => p.2.hasImag) then
        mkFail allow_failure "Evaluation returned invalid values (complex)"
      else
        (packageOutputs m.symbol_property_map outs).elim
          (mkFail allow_failure "Symbol mapping or unit conversion failed")
          (fun qs => .success qs))

/-- Modelled from the spec: a Registry key — the regression tests index the
registry namespaces both by Symbol objects and by name strings
(`Registry("symbols")[sym] = sym` stored, then popped by name), so a key is
either and is normalized to the name string. -/
inductive RegKey where
  | sym (s : Symbol)
  | str (s : String)

/-- The name string a registry key normalizes to. -/
def RegKey.name : RegKey → String
  | .sym s => s.name
  | .str s => s

/-- Looks a name up in a string-keyed association list. -/
def lookupStr (l : List (String × α)) (k : String) : Option α :=
  match l with
  | [] => none
  | (k', v) :: rest => if k' = k then some v else lookupStr rest k

/-- Modelled from the spec: one Registry namespace — "a mapping from name to
object, insertion order irrelevant, keys unique within a namespace" (§3);
module `propnet.core.registry` is missing from the excerpts. -/
structure RegistryNS (α : Type) where
  entries : List (String × α)

/-- The empty namespace. -/
def RegistryNS.empty : RegistryNS α := ⟨[]⟩

/-- Retrieves the value stored under a key's name. -/
def RegistryNS.get (ns : RegistryNS α) (k : RegKey) : Option α :=
  lookupStr ns.entries k.name

/-- Stores a value under a key's name, replacing any existing entry. -/
def RegistryNS.set (ns : RegistryNS α) (k : RegKey) (v : α) : RegistryNS α :=
  ⟨(k.name, v) :: ns.entries.filter (fun p => !(p.1 == k.name))⟩

/-- Key containment test. -/
def RegistryNS.contains (ns : RegistryNS α) (k : RegKey) : Bool :=
  (ns.get k).isSome

/-- Removes the entry under a key's name, returning the removed value (if
any) together with the remaining namespace. -/
def RegistryNS.pop (ns : RegistryNS α) (k : RegKey) : Option α × RegistryNS α :=
  (ns.get k, ⟨ns.entries.filter (fun p => !(p.1 == k.name))⟩)

/-- The key strings of a namespace, in iteration order. -/
def RegistryNS.keys (ns : RegistryNS α) : List String :=
  ns.entries.map (fun p => p.1)

/-- Duplicate-key registration failure (a `KeyError` in the source). -/
inductive RegError where
  | duplicateKey : RegError
deriving DecidableEq

/-- Modelled from the spec: `register(overwrite_registry)` inserts the model
into `Registry("models")`, raising a duplicate-key error when the name
exists and overwriting is not permitted (§4.4 Registration). -/
def EquationModel.registerIn (m : EquationModel) (overwrite_registry : Bool)
    (reg : RegistryNS EquationModel) : Except RegError (RegistryNS EquationModel) :=
  if !overwrite_registry && reg.contains (.str m.name) then .error .duplicateKey
  else .ok (reg.set (.str m.name) m)

/-- Modelled from the spec: the `registered` flag — true exactly when the
registry entry under the model's name is this very instance (the regression
test distinguishes instances with `assertIs`, modelled by `uid`). -/
def EquationModel.registered (m : EquationModel) (reg : RegistryNS EquationModel) : Bool :=
  match reg.get (.str m.name) with
  | some m2 => m2.uid == m.uid
  | none => false

/-- Modelled from the spec: `unregister()` removes the model's entry if this
instance is the one registered (§4.4: "no-op-safe check via `registered`
flag"). -/
def EquationModel.unregister (m : EquationModel) (reg : RegistryNS EquationModel) :
    RegistryNS EquationModel :=
  if m.registered reg then (reg.pop (.str m.name)).2 else reg

/-- Registration state: the models namespace plus a counter supplying fresh
object identities to newly constructed models. -/
structure RegState where
  models : RegistryNS EquationModel
  nextUid : ℕ

/-- Modelled from the spec: the EquationModel constructor — "constructing
with `register=True` (default) auto-registers; constructing with
`register=False` creates a detached, inert instance" (§4.4 Registration),
propagating the duplicate-key error of registration. -/
def EquationModel.construct (name : String) (equations : List Equation)
    (spm : List (String × Symbol)) (register : Bool) (overwrite_registry : Bool)
    (st : RegState) : Except RegError (EquationModel × RegState) :=
  let m : EquationModel := ⟨name, equations, spm, st.nextUid⟩
  if register then
    match m.registerIn overwrite_registry st.models with
    | .error e => .error e
    | .ok reg' => .ok (m, ⟨reg', st.nextUid + 1⟩)
  else .ok (m, ⟨st.models, st.nextUid + 1⟩)

/-- A node of the derivation graph: a Symbol node or a Model node (§3 Graph:
"nodes = every registered Symbol and every registered Model"). -/
inductive PNode where
  | sym (name : String)
  | mdl (name : String)
deriving DecidableEq

/-- Modelled from the spec: the derivation graph — Symbol and Model nodes
with "edges = (Symbol → Model) for each Model input, (Model → Symbol) for
each Model output" (§3); module `propnet.core.graph` is missing from the
excerpts.  Each model is recorded with its name, input symbol names and
output symbol names. -/
structure PGraph where
  symbolNames : List String
  models : List (String × List String × List String)

/-- All nodes of the graph. -/
def PGraph.nodes (g : PGraph) : List PNode :=
  g.symbolNames.map .sym ++ g.models.map (fun t => .mdl t.1)

/-- The directed edge relation: Symbol → Model for each model input and
Model → Symbol for each model output. -/
def PGraph.edge (g : PGraph) : PNode → PNode → Bool
  | .sym s, .mdl m => g.models.any (fun t => t.1 == m && t.2.1.contains s)
  | .mdl m, .sym s => g.models.any (fun t => t.1 == m && t.2.2.contains s)
  | _, _ => false

/-- Bounded reachability: a directed path of at most `n` edges exists. -/
def PGraph.reachLe (g : PGraph) : ℕ → PNode → PNode → Bool
  | 0, a, b => a == b
  | n + 1, a, b => a == b || g.nodes.any (fun c => g.edge a c && g.reachLe n c b)

/-- Directed reachability along graph edges. -/
def PGraph.Reachable (g : PGraph) (a b : PNode) : Prop :=
  Relation.ReflTransGen (fun u v => g.edge u v = true) a b

/-- The "node not found" lookup error of graph-distance queries (§7). -/
inductive GraphError where
  | nodeNotFound : GraphError
deriving DecidableEq

/-- Modelled from the spec: `get_degree_of_separation(symbol_a, symbol_b)` —
"shortest path length, in edge count, along directed Symbol→Model→Symbol
edges"; `None` when no directed path exists; a "node not found" lookup error
when either symbol name is absent from the graph (§4.5). -/
def PGraph.get_degree_of_separation (g : PGraph) (a b : String) :
    Except GraphError (Option ℕ) :=
  if a ∈ g.symbolNames ∧ b ∈ g.symbolNames then
    .ok ((List.range (g.nodes.length + 1)).find? (fun k => g.reachLe k (.sym a) (.sym b)))
  else .error .nodeNotFound

/-- The length Symbol of the unit-handling regression scenario, canonically
in centimeters (`test_model.py` line 39). -/
def lengthSym : Symbol :=
  ⟨"l", ["L"], ["L"], ⟨1, [("centimeter", 1)]⟩, [1], "", "property"⟩

/-- The area Symbol of the unit-handling regression scenario, canonically in
square centimeters (`test_model.py` line 40). -/
def areaSym : Symbol :=
  ⟨"a", ["A"], ["A"], ⟨1, [("centimeter", 2)]⟩, [1], "", "property"⟩

/-- The meter unit expression. -/
def meterUnits : UnitsExpr := ⟨1, [("meter", 1)]⟩

/-- The area model `a = l1 * l2` of the unit-handling regression scenario
(`test_model.py` lines 46–53). -/
def areaModel : EquationModel :=
  ⟨"area", [⟨"a", .mul (.var "l1") (.var "l2")⟩],
   [("a", areaSym), ("l1", lengthSym), ("l2", lengthSym)], 0⟩

/-- The dimensionless Symbol `a` of the NaN/complex regression scenarios. -/
def aSymDimless : Symbol := ⟨"a", ["A"], ["A"], ⟨1, []⟩, [1], "", "property"⟩

/-- The dimensionless Symbol `b` of the NaN/complex regression scenarios. -/
def bSymDimless : Symbol := ⟨"b", ["B"], ["B"], ⟨1, []⟩, [1], "", "property"⟩

/-- The equality model `a = b` (`test_model.py` lines 69–76). -/
def equalityModel : EquationModel :=
  ⟨"equality", [⟨"a", .var "b"⟩], [("a", aSymDimless), ("b", bSymDimless)], 0⟩

/-- The model `a = b + 1j` (`test_model.py` lines 91–98). -/
def addComplexModel : EquationModel :=
  ⟨"add_complex_value", [⟨"a", .add (.var "b") (.const (.num 0 1))⟩],
   [("a", aSymDimless), ("b", bSymDimless)], 0⟩

/-- Decidable equality of `Except` results, for evaluating concrete
scenarios. -/
instance {ε α : Type} [DecidableEq ε] [DecidableEq α] : DecidableEq (Except ε α) := fun a b =>
  match a, b with
  | .ok x, .ok y =>
    if h : x = y then .isTrue (by rw [h]) else .isFalse (fun hc => h (Except.ok.inj hc))
  | .error x, .error y =>
    if h : x = y then .isTrue (by rw [h]) else .isFalse (fun hc => h (Except.error.inj hc))
  | .ok _, .error _ => .isFalse (fun hc => Except.noConfusion hc)
  | .error _, .ok _ => .isFalse (fun hc => Except.noConfusion hc)

/-- The `l1` input of the unit-handling scenario: 1 meter. -/
def l1Quantity : Quantity := ⟨lengthSym, .num 1 0, meterUnits⟩

/-- The `l2` input of the unit-handling scenario: 2 in the Symbol's assumed
canonical unit (centimeters). -/
def l2Quantity : Quantity := ⟨lengthSym, .num 2 0, lengthSym.units⟩

/-- A graph with one model consuming `y` and producing `x`: a directed path
exists from `y` to `x` but none from `x` to `y`. -/
def asymGraph : PGraph := ⟨["x", "y"], [("m", ["y"], ["x"])]⟩

/-- A model instance for the registration scenario (uid 0). -/
def regModel0 : EquationModel :=
  ⟨"equation_model_to_remove", [⟨"a", .mul (.var "b") (.const (.num 3 0))⟩],
   [("a", aSymDimless), ("b", bSymDimless)], 0⟩

/-- A distinct replacement instance under the same name (uid 1). -/
def regModel1 : EquationModel :=
  ⟨"equation_model_to_remove", [⟨"c", .mul (.var "d") (.const (.num 3 0))⟩],
   [("c", aSymDimless), ("d", bSymDimless)], 1⟩

/-- A models registry holding `regModel0` under its name. -/
def regWithModel0 : RegistryNS EquationModel :=
  RegistryNS.empty.set (.str regModel0.name) regModel0

/-- The NaN input of the NaN regression scenario, in the Symbol's assumed
canonical (dimensionless) unit. -/
def nanBQuantity : Quantity := ⟨bSymDimless, .nan, bSymDimless.units⟩

/-- The real input `b = 5` of the complex regression scenario. -/
def b5Quantity : Quantity := ⟨bSymDimless, .num 5 0, bSymDimless.units⟩

/-- The complex input `b = 5j` of the complex regression scenario. -/
def b5jQuantity : Quantity := ⟨bSymDimless, .num 0 5, bSymDimless.units⟩

/-- A graph with no nodes at all. -/
def emptyGraph : PGraph := ⟨[], []⟩

/-- The units dict value of the `youngs_modulus` construction scenario
(`test_symbol.py` lines 18–25). -/
def ymUnitsIn : DictVal :=
  .list [.rat 1, .list [.list [.str "gigapascal", .rat 1]]]

/-- The Symbol produced by the `youngs_modulus` construction scenario. -/
def ymSymbol : Symbol :=
  ⟨"youngs_modulus", ["Youngs modulus", "Elastic modulus"], ["E"],
   ⟨1, [("gigapascal", 1)]⟩, [1], "", "property"⟩

/-- A lookup after filtering out a key finds nothing under that key. -/
theorem lookupStr_filter_self {α : Type} (l : List (String × α)) (k : String) :
    lookupStr (l.filter (fun p => !(p.1 == k))) k = none := by
  induction l with
  | nil => rfl
  | cons p t ih =>
    obtain ⟨k', v'⟩ := p
    by_cases h : k' = k
    · simpa [List.filter_cons, h] using ih
    · simpa [List.filter_cons, h, lookupStr] using ih

/-- C1: the area model `a = l1 * l2` over a length Symbol canonical in
centimeters and an area Symbol canonical in square centimeters, evaluated
with `l1` created as 1 meter and `l2` created as 2 with the unit omitted
(canonical centimeters assumed), succeeds and returns `a` with magnitude 200
expressed in the area Symbol's square-centimeter canonical units. -/
theorem claim_C1_area_model_unit_handling :
    QuantityFactory.create_quantity lengthSym (.num 1 0) (some meterUnits) = .ok l1Quantity
    ∧ QuantityFactory.create_quantity lengthSym (.num 2 0) none = .ok l2Quantity
    ∧ areaModel.evaluate [("l1", l1Quantity), ("l2", l2Quantity)] false =
        .success [("a", ⟨areaSym, .num 200 0, areaSym.units⟩)]
    ∧ areaSym.units = ⟨1, [("centimeter", 2)]⟩ :=
  ⟨by with_unfolding_all decide, by decide, by with_unfolding_all decide, rfl⟩

/-- C2: whenever the solved outputs of any EquationModel evaluation contain
a NaN scalar, `evaluate` with `allow_failure=True` returns the failure
result with message exactly "Evaluation returned invalid values (NaN)";
in particular the equality model `a = b` evaluated with `b = NaN` yields
exactly this failure. -/
theorem claim_C2_nan_failure :
    (∀ (m : EquationModel) (inputs : List (String × Quantity)) (outs : Env),
      m.solvedOutputs inputs = some outs →
      outs.any (fun p => p.2.isNaN) = true →
      m.evaluate inputs true = .failure "Evaluation returned invalid values (NaN)")
    ∧ equalityModel.evaluate [("b", nanBQuantity)] true =
        .failure "Evaluation returned invalid values (NaN)" := by
  constructor
  · intro m inputs outs hsolved hnan
    simp [EquationModel.evaluate, hsolved, hnan, mkFail]
  · with_unfolding_all decide

/-- C2 witness: the NaN-failure theorem applied to the equality model with
the NaN input. -/
theorem claim_C2_nan_failure_witness :
    equalityModel.evaluate [("b", nanBQuantity)] true =
      .failure "Evaluation returned invalid values (NaN)" :=
  claim_C2_nan_failure.1 equalityModel [("b", nanBQuantity)] [("a", .nan)]
    (by with_unfolding_all decide) (by decide)

/-- C3: evaluation with `allow_failure=True` fails with message exactly
"Evaluation returned invalid values (complex)" when the solved outputs have
a non-zero imaginary part while all inputs are real (the output Symbol being
real-valued), yet succeeds when the complex value arises by design from a
complex computation; in particular `a = b + 1j` with real `b = 5` fails with
that message while complex `b = 5j` succeeds and returns `a = 6j`. -/
theorem claim_C3_complex_validation :
    (∀ (m : EquationModel) (inputs : List (String × Quantity)) (outs : Env),
      m.solvedOutputs inputs = some outs →
      inputs.any (fun p => p.2.magnitude.hasImag) = false →
      outs.any (fun p => p.2.isNaN) = false →
      outs.any (fun p => p.2.hasImag) = true →
      m.evaluate inputs true = .failure "Evaluation returned invalid values (complex)")
    ∧ addComplexModel.evaluate [("b", b5Quantity)] true =
        .failure "Evaluation returned invalid values (complex)"
    ∧ addComplexModel.evaluate [("b", b5jQuantity)] true =
        .success [("a", ⟨aSymDimless, .num 0 6, aSymDimless.units⟩)] := by
  refine ⟨?_, by with_unfolding_all decide, by with_unfolding_all decide⟩
  intro m inputs outs hsolved hreal hnonan himag
  simp [EquationModel.evaluate, hsolved, hreal, hnonan, himag, mkFail]

/-- C3 witness: the complex-failure theorem applied to `a = b + 1j` with the
real input `b = 5`. -/
theorem claim_C3_complex_validation_witness :
    addComplexModel.evaluate [("b", b5Quantity)] true =
      .failure "Evaluation returned invalid values (complex)" :=
  claim_C3_complex_validation.1 addComplexModel [("b", b5Quantity)] [("a", .num 5 1)]
    (by with_unfolding_all decide) (by decide) (by decide) (by decide)

/-- C7: `get_degree_of_separation` returns the "node not found" lookup error
whenever either of the two given symbol names is absent from the graph's
symbol nodes. -/
theorem claim_C7_degree_of_separation_node_not_found :
    ∀ (g : PGraph) (x y : String),
      ¬(x ∈ g.symbolNames ∧ y ∈ g.symbolNames) →
      g.get_degree_of_separation x y = .error .nodeNotFound := by
  intro g x y h
  simp only [PGraph.get_degree_of_separation, if_neg h]

/-- C7 witness: the node-not-found theorem applied to the empty graph. -/
theorem claim_C7_degree_of_separation_node_not_found_witness :
    ¬("p" ∈ emptyGraph.symbolNames ∧ "q" ∈ emptyGraph.symbolNames)
    ∧ emptyGraph.get_degree_of_separation "p" "q" = .error .nodeNotFound :=
  ⟨by decide, claim_C7_degree_of_separation_node_not_found emptyGraph "p" "q" (by decide)⟩

/-- C8: `create_quantity` performs no numeric-validity check — for every
magnitude (NaN and complex included) construction succeeds whenever the
supplied unit (or the assumed canonical unit) is dimensionally compatible
with the Symbol. -/
theorem claim_C8_create_quantity_unchecked :
    ∀ (s : Symbol) (mag : Magnitude) (u : Option UnitsExpr),
      unitsCompatible s u = true →
      QuantityFactory.create_quantity s mag u = .ok ⟨s, mag, u.getD s.units⟩ := by
  intro s mag u h
  simp [QuantityFactory.create_quantity, h]

/-- C8 witness: the factory accepts a NaN magnitude and a complex magnitude
for the dimensionless Symbol with the unit omitted. -/
theorem claim_C8_create_quantity_unchecked_witness :
    unitsCompatible bSymDimless none = true
    ∧ QuantityFactory.create_quantity bSymDimless .nan none =
        .ok ⟨bSymDimless, .nan, (none : Option UnitsExpr).getD bSymDimless.units⟩
    ∧ QuantityFactory.create_quantity bSymDimless (.num 0 5) none =
        .ok ⟨bSymDimless, .num 0 5, (none : Option UnitsExpr).getD bSymDimless.units⟩ :=
  ⟨by decide, claim_C8_create_quantity_unchecked bSymDimless .nan none (by decide),
   claim_C8_create_quantity_unchecked bSymDimless (.num 0 5) none (by decide)⟩

/-- C10: a Symbol object and its name string are interchangeable as Registry
keys — an entry stored under a Symbol is retrievable, containment-testable
and removable under the name string, and the namespace's key iteration is
the same whether the entry was inserted under the Symbol or its name. -/
theorem claim_C10_registry_key_interchange :
    ∀ (α : Type) (ns : RegistryNS α) (s : Symbol) (v : α),
      (ns.set (.sym s) v).get (.str s.name) = some v
      ∧ (ns.set (.sym s) v).contains (.str s.name) = true
      ∧ ((ns.set (.sym s) v).pop (.str s.name)).1 = some v
      ∧ ((ns.set (.sym s) v).pop (.str s.name)).2.contains (.str s.name) = false
      ∧ (ns.set (.sym s) v).keys = (ns.set (.str s.name) v).keys := by
  intro α ns s v
  refine ⟨?_, ?_, ?_, ?_, rfl⟩ <;>
    simp [RegistryNS.set, RegistryNS.get, RegistryNS.contains, RegistryNS.pop,
          RegKey.name, lookupStr, lookupStr_filter_self]

/-- Every quantity packaged from the solved outputs carries its mapped
Symbol and that Symbol's canonical units. -/
theorem packageOutputs_mem (spm : List (String × Symbol)) :
    ∀ (env : Env) (qs : List (String × Quantity)),
      packageOutputs spm env = some qs →
      ∀ v q, (v, q) ∈ qs →
        ∃ s, spm.lookup v = some s ∧ q.units = s.units ∧ q.symbol = s := by
  intro env
  induction env with
  | nil =>
    intro qs h v q hm
    simp only [packageOutputs, Option.some.injEq] at h
    subst h
    simp at hm
  | cons p rest ih =>
    intro qs h v q hm
    obtain ⟨w, mag⟩ := p
    unfold packageOutputs at h
    split at h
    · rename_i s' qs' hl hp
      obtain rfl := Option.some.inj h
      rcases List.mem_cons.mp hm with hhead | htail
      · obtain ⟨rfl, rfl⟩ := Prod.mk.inj hhead
        exact ⟨s', hl, rfl, rfl⟩
      · exact ih qs' hp v q htail
    · exact absurd h (by simp)

/-- C4: for every successful `evaluate` call, every Quantity in the returned
outputs carries its mapped output Symbol and is expressed in that Symbol's
canonical units. -/
theorem claim_C4_outputs_canonical_units :
    ∀ (m : EquationModel) (inputs : List (String × Quantity)) (allow_failure : Bool)
      (outs : List (String × Quantity)),
      m.evaluate inputs allow_failure = .success outs →
      ∀ v q, (v, q) ∈ outs →
        ∃ s, m.symbol_property_map.lookup v = some s ∧ q.units = s.units ∧ q.symbol = s := by
  intro m inputs allow outs h v q hm
  unfold EquationModel.evaluate at h
  cases hso : m.solvedOutputs inputs with
  | none =>
    rw [hso] at h
    simp only [Option.elim] at h
    cases allow <;> simp [mkFail] at h
  | some raw =>
    rw [hso] at h
    simp only [Option.elim] at h
    split at h
    · cases allow <;> simp [mkFail] at h
    · split at h
      · cases allow <;> simp [mkFail] at h
      · cases hpo : packageOutputs m.symbol_property_map raw with
        | none =>
          rw [hpo] at h
          simp only [Option.elim] at h
          cases allow <;> simp [mkFail] at h
        | some qs =>
          rw [hpo] at h
          simp only [Option.elim, EvalOutcome.success.injEq] at h
          subst h
          exact packageOutputs_mem m.symbol_property_map raw qs hpo v q hm

/-- C4 witness: the canonical-units theorem applied to the successful
area-model evaluation. -/
theorem claim_C4_outputs_canonical_units_witness :
    areaModel.evaluate [("l1", l1Quantity), ("l2", l2Quantity)] false =
      .success [("a", ⟨areaSym, .num 200 0, areaSym.units⟩)]
    ∧ ∃ s, areaModel.symbol_property_map.lookup "a" = some s
        ∧ (⟨areaSym, .num 200 0, areaSym.units⟩ : Quantity).units = s.units
        ∧ (⟨areaSym, .num 200 0, areaSym.units⟩ : Quantity).symbol = s :=
  ⟨by with_unfolding_all decide,
   claim_C4_outputs_canonical_units areaModel [("l1", l1Quantity), ("l2", l2Quantity)]
     false [("a", ⟨areaSym, .num 200 0, areaSym.units⟩)] (by with_unfolding_all decide)
     "a" ⟨areaSym, .num 200 0, areaSym.units⟩ (List.mem_singleton.mpr rfl)⟩

/-- Bounded reachability is sound for directed reachability. -/
theorem reachLe_sound (g : PGraph) :
    ∀ (k : ℕ) (a b : PNode), g.reachLe k a b = true → g.Reachable a b := by
  intro k
  induction k with
  | zero =>
    intro a b h
    simp only [PGraph.reachLe, beq_iff_eq] at h
    subst h
    exact Relation.ReflTransGen.refl
  | succ n ih =>
    intro a b h
    simp only [PGraph.reachLe, Bool.or_eq_true, beq_iff_eq, List.any_eq_true,
               Bool.and_eq_true] at h
    rcases h with h | ⟨c, _, he, hr⟩
    · subst h
      exact Relation.ReflTransGen.refl
    · exact Relation.ReflTransGen.head he (ih c b hr)

/-- C5: for symbols both present in the graph, `get_degree_of_separation`
returns `None` whenever no directed Symbol-to-Model-to-Symbol path exists
from the first to the second; the forward and reverse queries are
independent (the witness exhibits a graph whose reverse query returns a
path length while the forward query returns `None`). -/
theorem claim_C5_degree_of_separation_none :
    ∀ (g : PGraph) (x y : String),
      x ∈ g.symbolNames → y ∈ g.symbolNames →
      ¬ g.Reachable (.sym x) (.sym y) →
      g.get_degree_of_separation x y = .ok none := by
  intro g x y hx hy hnr
  unfold PGraph.get_degree_of_separation
  rw [if_pos ⟨hx, hy⟩]
  have : (List.range (g.nodes.length + 1)).find?
      (fun k => g.reachLe k (.sym x) (.sym y)) = none := by
    rw [List.find?_eq_none]
    intro k _ hk
    exact hnr (reachLe_sound g k _ _ hk)
  rw [this]

/-- C5 witness: in the graph whose single model consumes `y` and produces
`x`, the forward query from `x` to `y` returns `None` (by the theorem, no
directed path exists) while the reverse query from `y` to `x` returns a
path of length 2. -/
theorem claim_C5_degree_of_separation_none_witness :
    ("x" ∈ asymGraph.symbolNames ∧ "y" ∈ asymGraph.symbolNames
      ∧ asymGraph.get_degree_of_separation "x" "y" = .ok none)
    ∧ asymGraph.get_degree_of_separation "y" "x" = .ok (some 2) := by
  refine ⟨⟨by decide, by decide,
          claim_C5_degree_of_separation_none asymGraph "x" "y" (by decide) (by decide) ?_⟩,
          by decide⟩
  intro h
  rcases Relation.ReflTransGen.cases_head h with heq | ⟨c, hedge, _⟩
  · exact absurd heq (by decide)
  · cases c with
    | sym s => simp [PGraph.edge] at hedge
    | mdl mname => simp [PGraph.edge, asymGraph] at hedge

/-- C6: registering a model under a name already present in the models
registry without overwrite permission — via `register` or via the
auto-registering constructor — fails with the duplicate-key error; with
overwrite permission the registry entry becomes the new instance and the
displaced instance's `registered` flag is false. -/
theorem claim_C6_model_registration :
    (∀ (reg : RegistryNS EquationModel) (m : EquationModel),
        reg.contains (.str m.name) = true →
        m.registerIn false reg = .error .duplicateKey)
    ∧ (∀ (st : RegState) (name : String) (eqs : List Equation)
          (spm : List (String × Symbol)),
        st.models.contains (.str name) = true →
        EquationModel.construct name eqs spm true false st = .error .duplicateKey)
    ∧ (∀ (reg reg' : RegistryNS EquationModel) (m mold : EquationModel),
        mold.name = m.name → mold.uid ≠ m.uid →
        m.registerIn true reg = .ok reg' →
        reg'.get (.str m.name) = some m ∧ mold.registered reg' = false) := by
  refine ⟨?_, ?_, ?_⟩
  · intro reg m h
    simp [EquationModel.registerIn, h]
  · intro st name eqs spm h
    simp [EquationModel.construct, EquationModel.registerIn, h]
  · intro reg reg' m mold hname huid h
    simp only [EquationModel.registerIn, Bool.not_true, Bool.false_and,
               Bool.false_eq_true, if_false, Except.ok.injEq] at h
    subst h
    constructor
    · simp [RegistryNS.set, RegistryNS.get, RegKey.name, lookupStr]
    · simp only [EquationModel.registered, RegistryNS.set, RegistryNS.get,
                 RegKey.name, hname, lookupStr, if_pos]
      simp only [beq_eq_false_iff_ne, ne_eq]
      exact fun hc => huid hc.symm

/-- C6 witness: the registration theorem applied to a registry holding one
model instance and a distinct replacement instance under the same name. -/
theorem claim_C6_model_registration_witness :
    regWithModel0.contains (.str regModel1.name) = true
    ∧ regModel1.registerIn false regWithModel0 = .error .duplicateKey
    ∧ EquationModel.construct "equation_model_to_remove" regModel1.equations
        regModel1.symbol_property_map true false ⟨regWithModel0, 1⟩ = .error .duplicateKey
    ∧ ((regWithModel0.set (.str regModel1.name) regModel1).get (.str regModel1.name) =
          some regModel1
        ∧ regModel0.registered (regWithModel0.set (.str regModel1.name) regModel1) = false) :=
  ⟨by decide,
   claim_C6_model_registration.1 regWithModel0 regModel1 (by decide),
   claim_C6_model_registration.2.1 ⟨regWithModel0, 1⟩ "equation_model_to_remove"
     regModel1.equations regModel1.symbol_property_map (by decide),
   claim_C6_model_registration.2.2 regWithModel0 _ regModel1 regModel0 rfl (by decide) rfl⟩

/-- An integer cast to a rational parses back to itself. -/
theorem ratToInt?_intCast (z : ℤ) : ratToInt? (z : ℚ) = some z := by
  simp [ratToInt?, Rat.den_intCast, Rat.num_intCast]

/-- A natural number cast to a rational parses back to itself. -/
theorem ratToNat?_natCast (n : ℕ) : ratToNat? (n : ℚ) = some n := by
  simp [ratToNat?, Rat.den_natCast, Rat.num_natCast]

/-- Rendering a list of strings and parsing it back is the identity. -/
theorem parseStrs_map_str (l : List String) : parseStrs (l.map .str) = some l := by
  induction l with
  | nil => rfl
  | cons s t ih => simp [parseStrs, parseStr, ih]

/-- Rendering the unit term list and parsing it back is the identity. -/
theorem parseTerms_render (ts : List (String × ℤ)) :
    parseTerms (ts.map (fun t => DictVal.list [.str t.1, .rat (t.2 : ℚ)])) = some ts := by
  induction ts with
  | nil => rfl
  | cons t rest ih => simp [parseTerms, parseTerm, ratToInt?_intCast, ih]

/-- Rendering a unit expression and parsing it back is the identity. -/
theorem parseUnits_render (u : UnitsExpr) : parseUnits (renderUnits u) = some u := by
  simp [renderUnits, parseUnits, parseTerms_render]

/-- Rendering a shape and parsing it back is the identity. -/
theorem parseShape_render (sh : List ℕ) :
    parseShape (.list (sh.map (fun (n : ℕ) => DictVal.rat (n : ℚ)))) = some sh := by
  have hlist : ∀ l : List ℕ,
      parseShapeList (l.map (fun (n : ℕ) => DictVal.rat (n : ℚ))) = some l := by
    intro l
    induction l with
    | nil => rfl
    | cons n t ih => simp only [List.map_cons, parseShapeList, ratToNat?_natCast, ih]
  simp only [parseShape, hlist]

/-- C9: for every Symbol constructed from valid fields through the
validating constructor, `from_dict` of `to_dict` returns exactly the
original Symbol. -/
theorem claim_C9_symbol_dict_round_trip :
    ∀ (name : String) (dns dss : List String) (unitsIn shapeIn : DictVal)
      (comment category : String) (s : Symbol),
      Symbol.make name dns dss unitsIn shapeIn comment category = some s →
      Symbol.from_dict s.to_dict = some s := by
  intro name dns dss unitsIn shapeIn comment category s h
  unfold Symbol.make at h
  split at h
  · rename_i u sh hu hsh
    split at h
    · rename_i hcond
      obtain rfl := Option.some.inj h
      simp only [Symbol.from_dict, Symbol.to_dict, dictGet, String.reduceEq, reduceIte,
                 parseStr, parseStrs_map_str, Option.some_bind, Option.getD_some,
                 Symbol.make, parseUnits_render, parseShape_render]
      rw [if_pos hcond]
    · exact absurd h (by simp)
  · exact absurd h (by simp)

/-- C9 witness: the round-trip theorem applied to the `youngs_modulus`
construction scenario. -/
theorem claim_C9_symbol_dict_round_trip_witness :
    Symbol.make "youngs_modulus" ["Youngs modulus", "Elastic modulus"] ["E"]
      ymUnitsIn (.rat 1) "" "property" = some ymSymbol
    ∧ Symbol.from_dict ymSymbol.to_dict = some ymSymbol :=
  ⟨by with_unfolding_all decide,
   claim_C9_symbol_dict_round_trip "youngs_modulus" ["Youngs modulus", "Elastic modulus"]
     ["E"] ymUnitsIn (.rat 1) "" "property" ymSymbol (by with_unfolding_all decide)⟩

end Propnet
